import Mathlib

/-!
Verification development for the mesh gossip router (`router.go`).

The Go source is embedded shallowly:
* `PeerName` is an opaque node identifier (a `Nat`);
* `peerNameSet` is a `Finset PeerName` (Go `map[PeerName]struct{}`);
* the Peers collaborator (external, per the spec §6) is an abstract state
  type `P` together with its `applyUpdate` operation, passed as a function;
* side effects on the collaborators (`ConnectionMaker.refresh()`,
  `Routes.recalculate()`) are recorded in an explicit effects record;
* fallible operations return `Except String`.
-/

abbrev PeerName := Nat

abbrev peerNameSet := Finset PeerName

/-- `topologyGossipData` from router.go: a reference to the external Peers
collaborator (opaque, modelled as a `Nat` identifier) plus the set of
changed names. -/
structure topologyGossipData where
  peers : Nat
  update : peerNameSet
deriving DecidableEq

/-- `(d *topologyGossipData) Merge(other GossipData)`: builds a fresh name
set holding every name of `d.update` and every name of `other.update`
(set union), keeping `d`'s Peers reference. -/
def topologyGossipData.Merge (d : topologyGossipData) (other : topologyGossipData) :
    topologyGossipData :=
  { peers := d.peers, update := d.update ∪ other.update }

/-- The pair returned by the Peers collaborator's `applyUpdate` (spec §6):
the decoded original delta ("what the sender sent") and the newly-learned
delta ("what was actually new to us"). -/
structure applyUpdateResult where
  origUpdate : peerNameSet
  newUpdate : peerNameSet
deriving DecidableEq

/-- Calls made on the downstream collaborators during one topology update:
how many times `ConnectionMaker.refresh()` and `Routes.recalculate()` ran. -/
structure topologyEffects where
  refreshCalls : Nat
  recalcCalls : Nat
deriving DecidableEq

namespace Router

/-- `Router.applyTopologyUpdate`: runs `Peers.applyUpdate` (the collaborator
operation `apply`, threading its state `P`); on error returns the error with
the Peers state unchanged and no downstream calls; on success, if the
newly-learned delta is nonempty, calls `ConnectionMaker.refresh()` and
`Routes.recalculate()` once each. -/
def applyTopologyUpdate {P : Type}
    (apply : P → List Nat → Except String (applyUpdateResult × P))
    (peersState : P) (update : List Nat) :
    Except String applyUpdateResult × P × topologyEffects :=
  match apply peersState update with
  | .error e => (.error e, peersState, ⟨0, 0⟩)
  | .ok (r, p) =>
      if 0 < r.newUpdate.card then (.ok r, p, ⟨1, 1⟩)
      else (.ok r, p, ⟨0, 0⟩)

/-- `Router.OnGossipBroadcast`: applies the payload via
`applyTopologyUpdate`; returns `(nil, err)` on error, `(nil, nil)` when the
original decoded delta is empty, and otherwise relays the original received
delta unchanged. The first component of the result is
`(relay, error)`, then the Peers state, then the downstream effects. -/
def OnGossipBroadcast {P : Type}
    (apply : P → List Nat → Except String (applyUpdateResult × P))
    (peersRef : Nat) (peersState : P) (update : List Nat) :
    (Option topologyGossipData × Option String) × P × topologyEffects :=
  match applyTopologyUpdate apply peersState update with
  | (.error e, p, eff) => ((none, some e), p, eff)
  | (.ok r, p, eff) =>
      if r.origUpdate.card = 0 then ((none, none), p, eff)
      else ((some ⟨peersRef, r.origUpdate⟩, none), p, eff)

/-- `Router.OnGossip`: applies the payload via `applyTopologyUpdate`;
returns `(nil, err)` on error, `(nil, nil)` when the newly-learned delta is
empty, and otherwise relays the improvement the receiver computed. -/
def OnGossip {P : Type}
    (apply : P → List Nat → Except String (applyUpdateResult × P))
    (peersRef : Nat) (peersState : P) (update : List Nat) :
    (Option topologyGossipData × Option String) × P × topologyEffects :=
  match applyTopologyUpdate apply peersState update with
  | (.error e, p, eff) => ((none, some e), p, eff)
  | (.ok r, p, eff) =>
      if r.newUpdate.card = 0 then ((none, none), p, eff)
      else ((some ⟨peersRef, r.newUpdate⟩, none), p, eff)

/-- `Router.OnGossipUnicast`: always returns an error naming the message;
the Peers collaborator state is passed through untouched. -/
def OnGossipUnicast {P : Type} (peersState : P) (sender : PeerName)
    (msg : List Nat) : Option String × P :=
  (some ("unexpected topology gossip unicast: " ++ toString msg), peersState)

end Router

/-- C4: Merge of two Topology Gossip Data values is the set union of their
Peer Name Sets; it is commutative as sets and idempotent. -/
theorem topologyGossipData_Merge_union_comm_idem (A B : topologyGossipData) :
    (A.Merge B).update = A.update ∪ B.update ∧
    (A.Merge B).update = (B.Merge A).update ∧
    A.Merge A = A := by
  refine ⟨rfl, Finset.union_comm _ _, ?_⟩
  cases A with
  | mk peers update => simp [topologyGossipData.Merge]

/-- C1 counterexample: a payload whose application succeeds with an
entirely redundant delta (the receiver learned nothing new:
`newUpdate = ∅`) but a nonempty original delta is still relayed by
`OnGossipBroadcast`, contradicting "entirely redundant returns
nothing-to-relay". -/
theorem OnGossipBroadcast_redundant_delta_still_relayed :
    ((fun (p : Unit) (_ : List Nat) =>
        (Except.ok (applyUpdateResult.mk {0} ∅, p) :
          Except String (applyUpdateResult × Unit))) () [0] =
      Except.ok (applyUpdateResult.mk {0} ∅, ())) ∧
    (Router.OnGossipBroadcast
        (fun (p : Unit) _ =>
          (Except.ok (applyUpdateResult.mk {0} ∅, p) :
            Except String (applyUpdateResult × Unit)))
        0 () [0]).1.1 = some ⟨0, {0}⟩ := by
  constructor
  · rfl
  · decide

/-- C1 (amended): for every payload whose application succeeds,
`OnGossipBroadcast` returns nothing-to-relay exactly when the original
received delta (as reported by `Peers.applyUpdate`) is empty; otherwise it
relays the original received delta unchanged, with no error. -/
theorem OnGossipBroadcast_relays_original {P : Type}
    (apply : P → List Nat → Except String (applyUpdateResult × P))
    (peersRef : Nat) (peersState : P) (update : List Nat)
    (r : applyUpdateResult) (p : P)
    (h : apply peersState update = .ok (r, p)) :
    (r.origUpdate = ∅ →
      (Router.OnGossipBroadcast apply peersRef peersState update).1 = (none, none)) ∧
    (r.origUpdate ≠ ∅ →
      (Router.OnGossipBroadcast apply peersRef peersState update).1 =
        (some ⟨peersRef, r.origUpdate⟩, none)) := by
  unfold Router.OnGossipBroadcast Router.applyTopologyUpdate
  rw [h]
  constructor
  · intro horig
    by_cases hnew : 0 < r.newUpdate.card <;> simp [hnew, horig]
  · intro horig
    have hcard : ¬ r.origUpdate.card = 0 := by
      simpa [Finset.card_eq_zero] using horig
    by_cases hnew : 0 < r.newUpdate.card <;> simp [hnew, hcard]

/-- C1 witness: a successful application with a nonempty original delta at
concrete inputs relays exactly that original delta. -/
theorem OnGossipBroadcast_relays_original_witness :
    (Router.OnGossipBroadcast
        (fun (p : Unit) _ => Except.ok (applyUpdateResult.mk {5} {5}, p))
        3 () [9]).1 = (some ⟨3, {5}⟩, none) :=
  (OnGossipBroadcast_relays_original
      (fun (p : Unit) _ => Except.ok (applyUpdateResult.mk {5} {5}, p))
      3 () [9] ⟨{5}, {5}⟩ () rfl).2 (by decide)

/-- Helper: the value of `applyTopologyUpdate` when the collaborator's
`applyUpdate` succeeds. -/
theorem applyTopologyUpdate_ok_eq {P : Type}
    (apply : P → List Nat → Except String (applyUpdateResult × P))
    (peersState : P) (update : List Nat)
    (r : applyUpdateResult) (p : P)
    (h : apply peersState update = .ok (r, p)) :
    Router.applyTopologyUpdate apply peersState update =
      (.ok r, p, if 0 < r.newUpdate.card then ⟨1, 1⟩ else ⟨0, 0⟩) := by
  unfold Router.applyTopologyUpdate
  rw [h]
  by_cases hc : 0 < r.newUpdate.card <;> simp [hc]

/-- C2: a successfully applied topology update with a nonempty newly-learned
delta makes both `OnGossipBroadcast` and `OnGossip` call
`ConnectionMaker.refresh()` and `Routes.recalculate()` exactly once each;
one with an empty newly-learned delta triggers neither. -/
theorem applyTopologyUpdate_refresh_recalculate_once {P : Type}
    (apply : P → List Nat → Except String (applyUpdateResult × P))
    (peersRef : Nat) (peersState : P) (update : List Nat)
    (r : applyUpdateResult) (p : P)
    (h : apply peersState update = .ok (r, p)) :
    (r.newUpdate ≠ ∅ →
      (Router.OnGossipBroadcast apply peersRef peersState update).2.2 = ⟨1, 1⟩ ∧
      (Router.OnGossip apply peersRef peersState update).2.2 = ⟨1, 1⟩) ∧
    (r.newUpdate = ∅ →
      (Router.OnGossipBroadcast apply peersRef peersState update).2.2 = ⟨0, 0⟩ ∧
      (Router.OnGossip apply peersRef peersState update).2.2 = ⟨0, 0⟩) := by
  have happ := applyTopologyUpdate_ok_eq apply peersState update r p h
  constructor
  · intro hnew
    have hpos : 0 < r.newUpdate.card := by
      simp [Finset.card_pos, Finset.nonempty_iff_ne_empty, hnew]
    rw [if_pos hpos] at happ
    constructor
    · unfold Router.OnGossipBroadcast
      rw [happ]
      by_cases horig : r.origUpdate.card = 0 <;> simp [horig]
    · unfold Router.OnGossip
      rw [happ]
      simp [Nat.pos_iff_ne_zero.mp hpos]
  · intro hnew
    have hpos : ¬ 0 < r.newUpdate.card := by simp [hnew]
    rw [if_neg hpos] at happ
    constructor
    · unfold Router.OnGossipBroadcast
      rw [happ]
      by_cases horig : r.origUpdate.card = 0 <;> simp [horig]
    · unfold Router.OnGossip
      rw [happ]
      simp [hnew]

/-- C2 witness: at concrete inputs, an update introducing the new name `1`
triggers refresh and recalculate exactly once on each delivery path. -/
theorem applyTopologyUpdate_refresh_recalculate_once_witness :
    (Router.OnGossipBroadcast
        (fun (p : Unit) _ => Except.ok (applyUpdateResult.mk {1} {1}, p))
        0 () [2]).2.2 = ⟨1, 1⟩ ∧
    (Router.OnGossip
        (fun (p : Unit) _ => Except.ok (applyUpdateResult.mk {1} {1}, p))
        0 () [2]).2.2 = ⟨1, 1⟩ :=
  (applyTopologyUpdate_refresh_recalculate_once
      (fun (p : Unit) _ => Except.ok (applyUpdateResult.mk {1} {1}, p))
      0 () [2] ⟨{1}, {1}⟩ () rfl).1 (by decide)

/-- C3: for every payload whose application succeeds, `OnGossip` returns
nothing-to-relay when the newly-learned delta reported by
`Peers.applyUpdate` is empty, and otherwise relays exactly that
newly-learned improvement. -/
theorem OnGossip_relays_improvement {P : Type}
    (apply : P → List Nat → Except String (applyUpdateResult × P))
    (peersRef : Nat) (peersState : P) (update : List Nat)
    (r : applyUpdateResult) (p : P)
    (h : apply peersState update = .ok (r, p)) :
    (r.newUpdate = ∅ →
      (Router.OnGossip apply peersRef peersState update).1 = (none, none)) ∧
    (r.newUpdate ≠ ∅ →
      (Router.OnGossip apply peersRef peersState update).1 =
        (some ⟨peersRef, r.newUpdate⟩, none)) := by
  unfold Router.OnGossip Router.applyTopologyUpdate
  rw [h]
  constructor
  · intro hnew
    by_cases hpos : 0 < r.newUpdate.card <;> simp [hpos, hnew]
  · intro hnew
    have hcard : ¬ r.newUpdate.card = 0 := by
      simpa [Finset.card_eq_zero] using hnew
    by_cases hpos : 0 < r.newUpdate.card <;> simp [hpos, hcard]

/-- C3 witness: a successful application whose improvement is `{2}` (the
sender sent `{1, 2}` of which only `2` was new) relays exactly `{2}`. -/
theorem OnGossip_relays_improvement_witness :
    (Router.OnGossip
        (fun (p : Unit) _ => Except.ok (applyUpdateResult.mk {1, 2} {2}, p))
        7 () [4]).1 = (some ⟨7, {2}⟩, none) :=
  (OnGossip_relays_improvement
      (fun (p : Unit) _ => Except.ok (applyUpdateResult.mk {1, 2} {2}, p))
      7 () [4] ⟨{1, 2}, {2}⟩ () rfl).2 (by decide)

/-- C7: for every sender and message, the topology channel's
`OnGossipUnicast` returns a non-nil error and leaves the Peers collaborator
state untouched. -/
theorem OnGossipUnicast_always_errors {P : Type} (peersState : P)
    (sender : PeerName) (msg : List Nat) :
    (Router.OnGossipUnicast peersState sender msg).1 ≠ none ∧
    (Router.OnGossipUnicast peersState sender msg).2 = peersState := by
  exact ⟨by simp [Router.OnGossipUnicast], rfl⟩

/-!
The channel registry. The `Gossiper` attached to a channel is opaque to the
registry; its possible provenances are the router itself (registered for
"topology"), an application gossiper handed to `NewGossip`, a gossiper
produced by the optional `GossiperMaker`, or the default `surrogateGossiper`.
-/

inductive Gossiper where
  /-- The Router itself, the built-in Gossiper of the "topology" channel. -/
  | routerGossiper : Gossiper
  /-- The default `surrogateGossiper` used when no `GossiperMaker` is set. -/
  | surrogate : Gossiper
  /-- The result of `GossiperMaker.MakeGossiper(channelName, router)`. -/
  | made : String → Gossiper
  /-- An application-supplied gossiper. -/
  | user : Nat → Gossiper
deriving DecidableEq

/-- A gossip channel as the registry sees it: its name and its Gossiper
(`newGossipChannel(channelName, ourself, routes, gossiper, logger)`; the
local-peer, routes and logger references play no part in the registry
claims). -/
structure gossipChannel where
  name : String
  gossiper : Gossiper
deriving DecidableEq

/-- `newGossipChannel` from gossip_channel.go as used by router.go. -/
def newGossipChannel (channelName : String) (g : Gossiper) : gossipChannel :=
  ⟨channelName, g⟩

/-- The registry state of the router: the `gossipChannels` map (an
association list keyed by channel name, newest first) and the optional
`GossiperMaker`. -/
structure RouterState where
  gossipChannels : List (String × gossipChannel)
  gossiperMaker : Option (String → Gossiper)

namespace Router

/-- `Router.NewGossip`: constructs a channel for the gossiper, fails with a
duplicate-channel error (leaving the registry untouched) when the name is
already present, and otherwise stores the new channel under the name. -/
def NewGossip (r : RouterState) (channelName : String) (g : Gossiper) :
    Except String gossipChannel × RouterState :=
  let channel := newGossipChannel channelName g
  match r.gossipChannels.lookup channelName with
  | some _ => (.error ("[gossip] duplicate channel " ++ channelName), r)
  | none =>
      (.ok channel,
       { r with gossipChannels := (channelName, channel) :: r.gossipChannels })

/-- `Router.gossipChannel`: the creating lookup of the inbound path. If the
name is present the stored channel is returned; otherwise a surrogate
channel is created — its Gossiper made by the `GossiperMaker` when one was
supplied, the default `surrogateGossiper` otherwise — stored, and
returned. -/
def gossipChannel (r : RouterState) (channelName : String) :
    gossipChannel × RouterState :=
  match r.gossipChannels.lookup channelName with
  | some channel => (channel, r)
  | none =>
      let gossiper : Gossiper :=
        match r.gossiperMaker with
        | some maker => maker channelName
        | none => Gossiper.surrogate
      let channel := newGossipChannel channelName gossiper
      (channel, { r with gossipChannels := (channelName, channel) :: r.gossipChannels })

end Router

/-- C5: registering a name that already has a channel returns a duplicate
error and leaves the registry mapping — every stored channel, in particular
the first channel under that name and its Gossiper — unchanged; registering
a fresh name succeeds with a channel bound to the given gossiper, stored
under that name. -/
theorem NewGossip_duplicate_fails_fresh_stores (r : RouterState)
    (channelName : String) (g : Gossiper) :
    (∀ c0, r.gossipChannels.lookup channelName = some c0 →
      (Router.NewGossip r channelName g).1 =
        .error ("[gossip] duplicate channel " ++ channelName) ∧
      (Router.NewGossip r channelName g).2 = r ∧
      (Router.NewGossip r channelName g).2.gossipChannels.lookup channelName
        = some c0) ∧
    (r.gossipChannels.lookup channelName = none →
      (Router.NewGossip r channelName g).1 = .ok ⟨channelName, g⟩ ∧
      (Router.NewGossip r channelName g).2.gossipChannels.lookup channelName
        = some ⟨channelName, g⟩) := by
  constructor
  · intro c0 hc0
    unfold Router.NewGossip
    rw [hc0]
    exact ⟨rfl, rfl, by rw [hc0]⟩
  · intro hnone
    unfold Router.NewGossip
    rw [hnone]
    refine ⟨rfl, ?_⟩
    simp [newGossipChannel, List.lookup]

/-- C5 witness: on a registry holding `"topology"`, re-registering
`"topology"` fails and leaves the mapping intact, while registering the
fresh name `"app"` stores the new channel. -/
theorem NewGossip_duplicate_fails_fresh_stores_witness :
    ((Router.NewGossip
        ⟨[("topology", ⟨"topology", Gossiper.routerGossiper⟩)], none⟩
        "topology" (Gossiper.user 1)).1 =
      .error ("[gossip] duplicate channel " ++ "topology") ∧
     (Router.NewGossip
        ⟨[("topology", ⟨"topology", Gossiper.routerGossiper⟩)], none⟩
        "topology" (Gossiper.user 1)).2 =
      ⟨[("topology", ⟨"topology", Gossiper.routerGossiper⟩)], none⟩ ∧
     (Router.NewGossip
        ⟨[("topology", ⟨"topology", Gossiper.routerGossiper⟩)], none⟩
        "topology" (Gossiper.user 1)).2.gossipChannels.lookup "topology" =
      some ⟨"topology", Gossiper.routerGossiper⟩) ∧
    ((Router.NewGossip
        ⟨[("topology", ⟨"topology", Gossiper.routerGossiper⟩)], none⟩
        "app" (Gossiper.user 1)).1 = .ok ⟨"app", Gossiper.user 1⟩) :=
  ⟨(NewGossip_duplicate_fails_fresh_stores
      ⟨[("topology", ⟨"topology", Gossiper.routerGossiper⟩)], none⟩
      "topology" (Gossiper.user 1)).1
      ⟨"topology", Gossiper.routerGossiper⟩ (by simp [List.lookup]),
   ((NewGossip_duplicate_fails_fresh_stores
      ⟨[("topology", ⟨"topology", Gossiper.routerGossiper⟩)], none⟩
      "app" (Gossiper.user 1)).2 (by simp [List.lookup])).1⟩

/-- C6: resolving a name absent from the registry creates exactly one
surrogate channel and stores it (the registry grows by exactly that entry);
the surrogate's Gossiper comes from the `GossiperMaker` when one was
supplied and is the default surrogate Gossiper otherwise; resolving the
same name again returns that very channel and creates nothing. -/
theorem gossipChannel_creates_surrogate_once (r : RouterState)
    (channelName : String)
    (h : r.gossipChannels.lookup channelName = none) :
    ((Router.gossipChannel r channelName).2.gossipChannels =
      (channelName, (Router.gossipChannel r channelName).1) ::
        r.gossipChannels) ∧
    (∀ maker, r.gossiperMaker = some maker →
      (Router.gossipChannel r channelName).1 =
        ⟨channelName, maker channelName⟩) ∧
    (r.gossiperMaker = none →
      (Router.gossipChannel r channelName).1 =
        ⟨channelName, Gossiper.surrogate⟩) ∧
    (Router.gossipChannel (Router.gossipChannel r channelName).2 channelName =
      ((Router.gossipChannel r channelName).1,
       (Router.gossipChannel r channelName).2)) := by
  cases hm : r.gossiperMaker with
  | none =>
      refine ⟨?_, ?_, ?_, ?_⟩
      · simp [Router.gossipChannel, h, hm, newGossipChannel]
      · intro maker hmaker
        exact absurd hmaker (by simp)
      · intro _
        simp [Router.gossipChannel, h, hm, newGossipChannel]
      · simp [Router.gossipChannel, h, hm, newGossipChannel, List.lookup]
  | some maker =>
      refine ⟨?_, ?_, ?_, ?_⟩
      · simp [Router.gossipChannel, h, hm, newGossipChannel]
      · intro maker' hmaker
        injection hmaker with hmm
        subst hmm
        simp [Router.gossipChannel, h, hm, newGossipChannel]
      · intro hnone
        exact absurd hnone (by simp)
      · simp [Router.gossipChannel, h, hm, newGossipChannel, List.lookup]

/-- C6 witness: resolving the unknown name "app" on a registry holding only
"topology" and no GossiperMaker creates the default surrogate channel, adds
exactly that entry, and a second resolve returns the same channel with the
registry unchanged. -/
theorem gossipChannel_creates_surrogate_once_witness :
    ((Router.gossipChannel
        ⟨[("topology", ⟨"topology", Gossiper.routerGossiper⟩)], none⟩
        "app").2.gossipChannels =
      ("app", (Router.gossipChannel
        ⟨[("topology", ⟨"topology", Gossiper.routerGossiper⟩)], none⟩
        "app").1) :: [("topology", ⟨"topology", Gossiper.routerGossiper⟩)]) ∧
    ((Router.gossipChannel
        ⟨[("topology", ⟨"topology", Gossiper.routerGossiper⟩)], none⟩
        "app").1 = ⟨"app", Gossiper.surrogate⟩) ∧
    (Router.gossipChannel
        (Router.gossipChannel
          ⟨[("topology", ⟨"topology", Gossiper.routerGossiper⟩)], none⟩
          "app").2 "app" =
      ((Router.gossipChannel
          ⟨[("topology", ⟨"topology", Gossiper.routerGossiper⟩)], none⟩
          "app").1,
       (Router.gossipChannel
          ⟨[("topology", ⟨"topology", Gossiper.routerGossiper⟩)], none⟩
          "app").2)) :=
  ⟨(gossipChannel_creates_surrogate_once
      ⟨[("topology", ⟨"topology", Gossiper.routerGossiper⟩)], none⟩
      "app" (by decide)).1,
   (gossipChannel_creates_surrogate_once
      ⟨[("topology", ⟨"topology", Gossiper.routerGossiper⟩)], none⟩
      "app" (by decide)).2.2.1 rfl,
   (gossipChannel_creates_surrogate_once
      ⟨[("topology", ⟨"topology", Gossiper.routerGossiper⟩)], none⟩
      "app" (by decide)).2.2.2⟩

/-!
Inbound dispatch. The wire payload carries gob-encoded values; the gob
decoder (Go standard library) is modelled as a stream of typed values read
from the front, a read failing when the stream is exhausted or the next
value has the wrong type. The three protocol tags are, per the wire
contract, {Gossip (merge), GossipUnicast, GossipBroadcast}.
-/

inductive protocolTag where
  | ProtocolGossip : protocolTag
  | ProtocolGossipUnicast : protocolTag
  | ProtocolGossipBroadcast : protocolTag
deriving DecidableEq

/-- One gob-encoded value in a payload stream. -/
inductive gobValue where
  | str : String → gobValue
  | peer : PeerName → gobValue
deriving DecidableEq

/-- `decoder.Decode(&channelName)`: read a string from the front of the
stream. -/
def decodeStringField : List gobValue → Except String (String × List gobValue)
  | gobValue.str s :: rest => .ok (s, rest)
  | _ => .error "gob decode: expected string"

/-- `decoder.Decode(&srcName)`: read a PeerName from the front of the
stream. -/
def decodePeerNameField : List gobValue → Except String (PeerName × List gobValue)
  | gobValue.peer p :: rest => .ok (p, rest)
  | _ => .error "gob decode: expected PeerName"

/-- Which of the three channel delivery operations ran. -/
inductive deliveryKind where
  | unicast : deliveryKind
  | broadcast : deliveryKind
  | merge : deliveryKind
deriving DecidableEq

/-- The delivery selected by the protocol tag's switch:
`ProtocolGossipUnicast → deliverUnicast`,
`ProtocolGossipBroadcast → deliverBroadcast`, `ProtocolGossip → deliver`. -/
def deliveryOfTag : protocolTag → deliveryKind
  | .ProtocolGossipUnicast => .unicast
  | .ProtocolGossipBroadcast => .broadcast
  | .ProtocolGossip => .merge

/-- The single delivery invocation `handleGossip` hands to the resolved
channel: which operation, on which channel (with its Gossiper), from which
sender. -/
structure gossipDelivery where
  kind : deliveryKind
  channel : gossipChannel
  srcName : PeerName
deriving DecidableEq

namespace Router

/-- `Router.handleGossip`: decodes the channel name from the front of the
payload, resolves the channel (creating a surrogate if needed), decodes the
sender PeerName, and dispatches exactly one delivery selected by the tag;
any decode error is returned to the caller with no delivery invoked. The
registry state is threaded explicitly. -/
def handleGossip (r : RouterState) (tag : protocolTag)
    (payload : List gobValue) : Except String gossipDelivery × RouterState :=
  match decodeStringField payload with
  | .error e => (.error e, r)
  | .ok (channelName, rest) =>
      let (channel, r1) := Router.gossipChannel r channelName
      match decodePeerNameField rest with
      | .error e => (.error e, r1)
      | .ok (srcName, _) =>
          (.ok ⟨deliveryOfTag tag, channel, srcName⟩, r1)

end Router

/-- C8: `handleGossip` decodes the header fields in order — channel name,
then sender PeerName — from the front of the payload, resolves the channel,
and invokes exactly one delivery selected by the protocol tag; a failed
decode of either header field makes it return that decode error with no
delivery invoked, the registry surviving intact. -/
theorem handleGossip_dispatch (r : RouterState) (tag : protocolTag)
    (payload : List gobValue) :
    (∀ e, decodeStringField payload = .error e →
      Router.handleGossip r tag payload = (.error e, r)) ∧
    (∀ channelName rest e,
      payload = gobValue.str channelName :: rest →
      decodePeerNameField rest = .error e →
      Router.handleGossip r tag payload =
        (.error e, (Router.gossipChannel r channelName).2)) ∧
    (∀ channelName srcName rest,
      payload = gobValue.str channelName :: gobValue.peer srcName :: rest →
      Router.handleGossip r tag payload =
        (.ok ⟨deliveryOfTag tag,
              (Router.gossipChannel r channelName).1, srcName⟩,
         (Router.gossipChannel r channelName).2)) := by
  refine ⟨?_, ?_, ?_⟩
  · intro e he
    unfold Router.handleGossip
    rw [he]
  · intro channelName rest e hp he
    subst hp
    unfold Router.handleGossip
    simp only [decodeStringField]
    rw [he]
  · intro channelName srcName rest hp
    subst hp
    unfold Router.handleGossip
    simp only [decodeStringField, decodePeerNameField]

/-- C8 witness: a well-formed broadcast header for channel "app" from peer 7
invokes exactly the broadcast delivery on the resolved channel, and a
payload missing the sender field is rejected with the decode error. -/
theorem handleGossip_dispatch_witness :
    (Router.handleGossip ⟨[], none⟩ protocolTag.ProtocolGossipBroadcast
        [gobValue.str "app", gobValue.peer 7] =
      (.ok ⟨deliveryKind.broadcast,
            (Router.gossipChannel ⟨[], none⟩ "app").1, 7⟩,
       (Router.gossipChannel ⟨[], none⟩ "app").2)) ∧
    (Router.handleGossip ⟨[], none⟩ protocolTag.ProtocolGossip
        [gobValue.peer 7] =
      (.error "gob decode: expected string", ⟨[], none⟩)) :=
  ⟨(handleGossip_dispatch ⟨[], none⟩ protocolTag.ProtocolGossipBroadcast
      [gobValue.str "app", gobValue.peer 7]).2.2 "app" 7 [] rfl,
   (handleGossip_dispatch ⟨[], none⟩ protocolTag.ProtocolGossip
      [gobValue.peer 7]).1 "gob decode: expected string" rfl⟩

/-- C10: a payload whose channel-name field decodes but whose sender field
does not makes `handleGossip` return the decode error; the channel was
resolved before the failure, so a previously unknown name leaves a newly
created surrogate channel registered despite the rejection. -/
theorem handleGossip_decode_error_keeps_surrogate (r : RouterState)
    (tag : protocolTag) (channelName : String) (rest : List gobValue) (e : String)
    (hunknown : r.gossipChannels.lookup channelName = none)
    (hrest : decodePeerNameField rest = .error e) :
    (Router.handleGossip r tag (gobValue.str channelName :: rest)).1 =
      .error e ∧
    (Router.handleGossip r tag (gobValue.str channelName :: rest)).2.gossipChannels =
      (channelName, (Router.gossipChannel r channelName).1) ::
        r.gossipChannels := by
  have hd : Router.handleGossip r tag (gobValue.str channelName :: rest) =
      (.error e, (Router.gossipChannel r channelName).2) := by
    unfold Router.handleGossip
    simp only [decodeStringField]
    rw [hrest]
  rw [hd]
  exact ⟨rfl,
    (gossipChannel_creates_surrogate_once r channelName hunknown).1⟩

/-- C10 witness: on an empty registry, the truncated payload
`[str "app"]` is rejected with the sender decode error, yet the surrogate
channel for "app" is left registered. -/
theorem handleGossip_decode_error_keeps_surrogate_witness :
    (Router.handleGossip ⟨[], none⟩ protocolTag.ProtocolGossip
        [gobValue.str "app"]).1 = .error "gob decode: expected PeerName" ∧
    (Router.handleGossip ⟨[], none⟩ protocolTag.ProtocolGossip
        [gobValue.str "app"]).2.gossipChannels =
      [("app", (Router.gossipChannel ⟨[], none⟩ "app").1)] :=
  handleGossip_decode_error_keeps_surrogate ⟨[], none⟩
    protocolTag.ProtocolGossip "app" [] "gob decode: expected PeerName"
    (by decide) rfl

/-!
Connection-admission rate limiter. `router.go` fixes the parameters
(`acceptMaxTokens = 20`, `acceptTokenDelay = 50ms`) and constructs the
bucket in `NewRouter`; the bucket itself lives in a file outside the
visible source, so its behaviour is modelled from the spec. Blocking is
modelled with virtual time: `wait` takes the instant the call is issued and
returns the instant it completes, in milliseconds.
-/

/-- `acceptMaxTokens` from router.go: the bucket capacity C. -/
def acceptMaxTokens : Nat := 20

/-- `acceptTokenDelay` from router.go: the refill delay D, in
milliseconds. -/
def acceptTokenDelay : Nat := 50

/-- Modelled from the spec: the token-bucket state of §4.3 (its source
file is not among the visible sources) — capacity, refill delay, current
token count, and the instant of the last consumption. -/
structure tokenBucket where
  capacity : Nat
  tokenDelay : Nat
  tokens : Nat
  lastConsumption : Nat

/-- Modelled from the spec: `newTokenBucket(capacity, delay)` starts with a
full bucket, so the initial capacity allows an initial burst of C. -/
def newTokenBucket (capacity : Nat) (tokenDelay : Nat) : tokenBucket :=
  ⟨capacity, tokenDelay, capacity, 0⟩

/-- Modelled from the spec: `Wait()` blocks the caller until at least one
token is available, then consumes it; with no token left, one regenerates
once D has elapsed since the last consumption, so the call completes at
`max now (lastConsumption + D)`. -/
def tokenBucket.wait (tb : tokenBucket) (now : Nat) : Nat × tokenBucket :=
  if 0 < tb.tokens then
    (now, { tb with tokens := tb.tokens - 1, lastConsumption := now })
  else
    let t := max now (tb.lastConsumption + tb.tokenDelay)
    (t, { tb with lastConsumption := t })

/-- The completion instants of `n` consecutive `Wait()` calls, each issued
the moment the previous one completes, the first issued at `now`. -/
def waitTimes : tokenBucket → Nat → Nat → List Nat
  | _, _, 0 => []
  | tb, now, Nat.succ n =>
      let r := tokenBucket.wait tb now
      r.1 :: waitTimes r.2 r.1 n

/-- The accept limiter built in `NewRouter`:
`newTokenBucket(acceptMaxTokens, acceptTokenDelay)`. -/
def newRouterAcceptLimiter : tokenBucket :=
  newTokenBucket acceptMaxTokens acceptTokenDelay

/-- C9: on the accept limiter (C = 20, D = 50ms), twenty consecutive
`Wait()` calls issued with no delay all complete immediately (at instant
0), and the twenty-first completes only at instant 50 — it blocks for the
full refill delay D. -/
theorem acceptLimiter_burst_then_blocks :
    waitTimes newRouterAcceptLimiter 0 (acceptMaxTokens + 1) =
      List.replicate acceptMaxTokens 0 ++ [acceptTokenDelay] := by
  decide
